import Mathlib

/-!
Verification of the CommissionGuard ticket tracker against its
natural-language specification.

The repository is a single-page React application backed by a remote
document store (Firestore).  Three near-duplicate variants of the main
component exist: the Vercel variant (`src/App.jsx`), the Canvas variant
(first document of the unnamed sources, with a custom confirmation
modal), and the Netlify variant (third document of the unnamed sources,
which uses a server-side `orderBy` instead of a client-side sort).

This file shallowly embeds the pure data-flow of those components:

* `jsTrim` models `String.prototype.trim` over the ECMAScript
  whitespace set;
* `Ticket` models a document of the tickets collection;
* `processSnapshot` models the `onSnapshot` handler of the Vercel and
  Canvas variants (map then client-side sort by the comparator
  `(a, b) => (b.createdAt?.toMillis() || 0) - (a.createdAt?.toMillis() || 0)`,
  a stable sort per the ECMAScript specification, here `mergeSort`);
* `processSnapshotNetlify` models the Netlify variant's handler, which
  stores the snapshot order unchanged (ordering relied upon from the
  query's `orderBy('createdAt', 'desc')`);
* `createTicket`, `updateTicketStatus`, `deleteFlowStep` model the CRUD
  handlers, with the remote outcome (`remoteOk`) made explicit and the
  `console.error` calls materialised as a log;
* `ticketCardControls` models which controls `TicketCard` renders for a
  given viewer;
* `stats` models the `useMemo` statistics aggregator, with JavaScript
  number arithmetic modelled over `ℚ` and `toFixed(1)` modelled by
  `toFixed1` (round half away from zero, which for the non-negative
  inputs that occur is round half up).
-/

namespace CommissionTracker

/-- ECMAScript whitespace (the set `String.prototype.trim` strips):
WhiteSpace (TAB, VT, FF, SP, NBSP, ZWNBSP and the Unicode
Space_Separator category) together with LineTerminator (LF, CR, LS, PS). -/
def isJsWhitespace (c : Char) : Bool :=
  c.toNat = 9 || c.toNat = 10 || c.toNat = 11 || c.toNat = 12 || c.toNat = 13 ||
  c.toNat = 32 || c.toNat = 0xA0 || c.toNat = 0x1680 ||
  (0x2000 ≤ c.toNat && c.toNat ≤ 0x200A) ||
  c.toNat = 0x2028 || c.toNat = 0x2029 || c.toNat = 0x202F || c.toNat = 0x205F ||
  c.toNat = 0x3000 || c.toNat = 0xFEFF

/-- Model of `String.prototype.trim` on the character list: drop
whitespace from the front, then from the back. -/
def jsTrimList (s : List Char) : List Char :=
  ((s.dropWhile isJsWhitespace).reverse.dropWhile isJsWhitespace).reverse

/-- Model of `title.trim()` / `description.trim()`. -/
def jsTrim (s : String) : String :=
  String.mk (jsTrimList s.data)

/-- A document of the tickets collection, as materialised by the
snapshot handler (`{ id: doc.id, ...doc.data() }`).  `createdAt` is the
server timestamp in milliseconds (`toMillis()`), `none` while the
`serverTimestamp()` sentinel is still unresolved. -/
structure Ticket where
  id : String
  title : String
  description : String
  status : String
  userId : String
  createdAt : Option Int
deriving DecidableEq

/-- Sort key of the client-side comparator:
`a.createdAt?.toMillis() || 0` (missing timestamp falls back to `0`). -/
def sortKey (t : Ticket) : Int :=
  t.createdAt.getD 0

/-- The order produced by the comparator
`(a, b) => timeB - timeA`: `a` may precede `b` iff `b`'s key is at most
`a`'s key (descending by creation time). -/
def ticketLe (a b : Ticket) : Bool :=
  decide (sortKey b ≤ sortKey a)

/-- Snapshot handler of the Vercel and Canvas variants: the fetched
ticket list is stable-sorted client-side, descending by `createdAt`.
ECMAScript `Array.prototype.sort` is stable, so `mergeSort` computes the
same list. -/
def processSnapshot (docs : List Ticket) : List Ticket :=
  docs.mergeSort ticketLe

/-- Snapshot handler of the Netlify variant: `setTickets` stores the
snapshot order unchanged; ordering is relied upon from the query's
`orderBy('createdAt', 'desc')` and no client-side sort is performed. -/
def processSnapshotNetlify (docs : List Ticket) : List Ticket :=
  docs

/-- The `where('userId', '==', user.uid)` filter of the My Tickets
query, applied to the collection contents. -/
def myTicketsQuery (uid : String) (col : List Ticket) : List Ticket :=
  col.filter (fun t => t.userId == uid)

/-- The ticket list displayed in the My Tickets view: the owner-filtered
query results, sorted by the snapshot handler. -/
def myTicketsView (uid : String) (col : List Ticket) : List Ticket :=
  processSnapshot (myTicketsQuery uid col)

/-- The local form state feeding `createTicket` (raw field values, as
typed). -/
structure FormState where
  title : String
  description : String
deriving DecidableEq

/-- Result of one invocation of `createTicket`: the collection after the
call, the form state after the call, and the `console.error` log entries
emitted by the call. -/
structure CreateResult where
  collection : List Ticket
  form : FormState
  log : List String
deriving DecidableEq

/-- Model of `createTicket` (identical in all three variants):

```
if (!title.trim() || !description.trim() || !user) return;
try {
  await addDoc(..., { title: title.trim(), description: description.trim(),
                      status: 'Open', userId: user.uid,
                      createdAt: serverTimestamp() });
  setTitle(''); setDescription('');
} catch (error) { console.error("Error creating document: ", error); }
```

`user` is the session uid (`none` when no session), `newId` the
provider-assigned document id, `now` the resolved server timestamp and
`remoteOk` the outcome of the remote `addDoc` call. -/
def createTicket (form : FormState) (user : Option String) (col : List Ticket)
    (newId : String) (now : Int) (remoteOk : Bool) : CreateResult :=
  match user with
  | none => ⟨col, form, []⟩
  | some uid =>
    if jsTrim form.title = "" ∨ jsTrim form.description = "" then
      ⟨col, form, []⟩
    else if remoteOk then
      ⟨col ++ [⟨newId, jsTrim form.title, jsTrim form.description, "Open", uid, some now⟩],
       ⟨"", ""⟩, []⟩
    else
      ⟨col, form, ["Error creating document: "]⟩

/-- Model of `updateTicketStatus(id, { status })`: the remote
`updateDoc` sets the status field of the document with that id; the
handler takes no caller identity and performs no ownership check.
Returns the collection after the call and the log entries emitted. -/
def updateTicketStatus (id : String) (newStatus : String) (col : List Ticket)
    (remoteOk : Bool) : List Ticket × List String :=
  if remoteOk then
    (col.map (fun t => if t.id = id then { t with status := newStatus } else t), [])
  else
    (col, ["Error updating document: "])

/-- Model of the `onSnapshot` error callback (identical in all three
variants): `(error) => { console.error("Error listening to tickets: ", error); }`
only logs — `setTickets` is not called, so the stored ticket list stays
whatever it was. -/
def subscribeError (tickets : List Ticket) : List Ticket × List String :=
  (tickets, ["Error listening to tickets: "])

/-- The deletion-flow state of the Canvas variant: the remote collection
together with the modal flag `showConfirmModal` and the pending id
`ticketToDeleteId`. -/
structure DeleteFlowState where
  remote : List Ticket
  showConfirmModal : Bool
  ticketToDeleteId : Option String
deriving DecidableEq

/-- User actions on the deletion flow: the delete trigger on a card
(`handleDeleteConfirmation`), the modal's confirm button
(`deleteTicket`) and the modal's cancel button. -/
inductive DeleteAction where
  | trigger : String → DeleteAction
  | confirm : DeleteAction
  | cancel : DeleteAction
deriving DecidableEq

/-- One step of the Canvas-variant deletion flow.

* `trigger id` runs `setTicketToDeleteId(id); setShowConfirmModal(true)`;
* `confirm` runs `deleteTicket`: the button exists only while the modal
  is open (`ConfirmationModal` renders `null` otherwise); the handler
  returns early when `ticketToDeleteId` is falsy (`null` or the empty
  string), else attempts the remote delete and, in a `finally` block,
  closes the modal and clears the pending id whether or not the delete
  succeeded, logging on failure;
* `cancel` runs `setShowConfirmModal(false)` only — the pending id is
  not cleared.

`remoteOk` is the outcome of the remote `deleteDoc` call. -/
def deleteFlowStep (s : DeleteFlowState) (a : DeleteAction) (remoteOk : Bool) :
    DeleteFlowState × List String :=
  match a with
  | .trigger id =>
      ({ s with ticketToDeleteId := some id, showConfirmModal := true }, [])
  | .cancel =>
      ({ s with showConfirmModal := false }, [])
  | .confirm =>
      if s.showConfirmModal then
        match s.ticketToDeleteId with
        | none => (s, [])
        | some id =>
          if id = "" then (s, [])
          else if remoteOk then
            ({ remote := s.remote.filter (fun t => t.id != id),
               showConfirmModal := false, ticketToDeleteId := none }, [])
          else
            ({ s with showConfirmModal := false, ticketToDeleteId := none },
             ["Error deleting document: "])
      else (s, [])

/-- Abstraction of the deletion flow to the specification's state
machine: `some id` is `pendingConfirmation(id)` (the modal is open for
`id`), `none` is `idle` (the modal is closed, so neither confirm nor
cancel is reachable). -/
def flowPhase (s : DeleteFlowState) : Option String :=
  if s.showConfirmModal then s.ticketToDeleteId else none

/-- The controls `TicketCard` renders for a given viewer. -/
structure CardControls where
  statusDropdown : Bool
  deleteButton : Bool
deriving DecidableEq

/-- Model of the `TicketCard` render logic: the status dropdown is
always rendered; the delete trigger is rendered only when
`user?.uid === ticket.userId` (`isOwner`). -/
def ticketCardControls (t : Ticket) (user : Option String) : CardControls :=
  { statusDropdown := true,
    deleteButton := match user with
                    | some uid => uid == t.userId
                    | none => false }

/-- Model of `Number.prototype.toFixed(1)` on the exact value: the
multiple of `1/10` nearest to `x`, ties towards the larger value (the
ECMAScript rule); for the non-negative inputs of the statistics view
this is `⌊10 x + 1/2⌋ / 10`. -/
def toFixed1 (x : ℚ) : ℚ :=
  (⌊10 * x + 1 / 2⌋ : ℚ) / 10

/-- The derived statistics record returned by the `stats` memo. -/
structure Stats where
  total : Nat
  «open» : Nat
  inProgress : Nat
  resolved : Nat
  openPercent : ℚ
  inProgressPercent : ℚ
  resolvedPercent : ℚ
deriving DecidableEq

/-- Model of the statistics aggregator (identical in all three
variants): counts by exact status string, percentage of total rounded
to one decimal, `0` when the total is `0`:

```
const total = tickets.length;
const open = tickets.filter(t => t.status === 'Open').length;
...
openPercent: total > 0 ? ((open / total) * 100).toFixed(1) : 0,
```
-/
def stats (tickets : List Ticket) : Stats :=
  let total := tickets.length
  let openCount := (tickets.filter (fun t => t.status == "Open")).length
  let inProgressCount := (tickets.filter (fun t => t.status == "In Progress")).length
  let resolvedCount := (tickets.filter (fun t => t.status == "Resolved")).length
  { total := total
    «open» := openCount
    inProgress := inProgressCount
    resolved := resolvedCount
    openPercent :=
      if 0 < total then toFixed1 ((openCount : ℚ) / (total : ℚ) * 100) else 0
    inProgressPercent :=
      if 0 < total then toFixed1 ((inProgressCount : ℚ) / (total : ℚ) * 100) else 0
    resolvedPercent :=
      if 0 < total then toFixed1 ((resolvedCount : ℚ) / (total : ℚ) * 100) else 0 }

/-! ## Helper lemmas -/

/-- Whatever the head of a `dropWhile p` result is, it fails `p`. -/
lemma head?_dropWhile {α : Type} (p : α → Bool) :
    ∀ (l : List α) (c : α), (l.dropWhile p).head? = some c → p c = false := by
  intro l
  induction l with
  | nil => intro c h; simp at h
  | cons a t ih =>
    intro c h
    rw [List.dropWhile_cons] at h
    by_cases hpa : p a = true
    · exact ih c (by simpa [hpa] using h)
    · rw [if_neg hpa] at h
      simp only [List.head?_cons, Option.some.injEq] at h
      simp only [Bool.not_eq_true] at hpa
      rw [← h]
      exact hpa

/-- The first character of a trimmed character list is not whitespace. -/
lemma jsTrimList_head (s : List Char) (c : Char)
    (h : (jsTrimList s).head? = some c) : isJsWhitespace c = false := by
  unfold jsTrimList at h
  rw [List.head?_reverse] at h
  obtain ⟨u, hu⟩ :=
    List.dropWhile_suffix (l := (s.dropWhile isJsWhitespace).reverse) isJsWhitespace
  have hy : ((s.dropWhile isJsWhitespace).reverse).getLast? = some c := by
    rw [← hu, List.getLast?_append, h]
    rfl
  rw [List.getLast?_reverse] at hy
  exact head?_dropWhile isJsWhitespace _ c hy

/-- The last character of a trimmed character list is not whitespace. -/
lemma jsTrimList_getLast (s : List Char) (c : Char)
    (h : (jsTrimList s).getLast? = some c) : isJsWhitespace c = false := by
  unfold jsTrimList at h
  rw [List.getLast?_reverse] at h
  exact head?_dropWhile isJsWhitespace _ c h

/-- The characters underlying `jsTrim` are `jsTrimList` of the input's
characters. -/
lemma jsTrim_data (s : String) : (jsTrim s).data = jsTrimList s.data :=
  rfl

/-- The comparator order is transitive. -/
lemma ticketLe_trans :
    ∀ a b c : Ticket, ticketLe a b = true → ticketLe b c = true → ticketLe a c = true := by
  intro a b c hab hbc
  simp only [ticketLe, decide_eq_true_eq] at hab hbc ⊢
  omega

/-- The comparator order is total. -/
lemma ticketLe_total : ∀ a b : Ticket, (ticketLe a b || ticketLe b a) = true := by
  intro a b
  simp only [ticketLe, Bool.or_eq_true, decide_eq_true_eq]
  omega

/-- The client-side sort permutes the snapshot. -/
lemma processSnapshot_perm (l : List Ticket) : (processSnapshot l).Perm l :=
  List.mergeSort_perm l ticketLe

/-- The client-side sort yields a list whose `createdAt` keys are
non-increasing. -/
lemma processSnapshot_pairwise (l : List Ticket) :
    List.Pairwise (fun a b => sortKey b ≤ sortKey a) (processSnapshot l) := by
  have h := List.sorted_mergeSort ticketLe_trans ticketLe_total l
  exact h.imp (fun hab => by simpa [ticketLe, decide_eq_true_eq] using hab)

/-- The client-side sort is stable: a pair of tickets already in
comparator order keeps its relative order. -/
lemma processSnapshot_stable {l c : List Ticket}
    (hc : List.Pairwise (fun a b => sortKey b ≤ sortKey a) c) (hsub : c.Sublist l) :
    c.Sublist (processSnapshot l) := by
  refine List.sublist_mergeSort ticketLe_trans ticketLe_total ?_ hsub
  exact hc.imp (fun h => by simp [ticketLe, decide_eq_true_eq]; omega)

/-- In a list sorted non-increasingly by key, an element whose key
strictly exceeds every other element's key is the head. -/
lemma head?_eq_of_sorted_max {L : List Ticket} {d : Ticket}
    (hs : List.Pairwise (fun a b => sortKey b ≤ sortKey a) L)
    (hmem : d ∈ L) (hmax : ∀ t ∈ L, t ≠ d → sortKey t < sortKey d) :
    L.head? = some d := by
  cases L with
  | nil => cases hmem
  | cons h rest =>
    by_cases hd : h = d
    · simp [hd]
    · exfalso
      have hdr : d ∈ rest := by
        rcases List.mem_cons.mp hmem with h1 | h1
        · exact absurd h1.symm hd
        · exact h1
      have h1 : sortKey d ≤ sortKey h := (List.pairwise_cons.mp hs).1 d hdr
      have h2 : sortKey h < sortKey d := hmax h (List.mem_cons_self _ _) hd
      omega

/-- A status string matches at most one of the three recognised
statuses. -/
lemma status_indicator_le (s : String) :
    (if (s == "Open") = true then 1 else 0) +
    (if (s == "In Progress") = true then 1 else 0) +
    (if (s == "Resolved") = true then 1 else 0) ≤ 1 := by
  by_cases h1 : s = "Open"
  · rw [h1]; decide
  by_cases h2 : s = "In Progress"
  · rw [h2]; decide
  by_cases h3 : s = "Resolved"
  · rw [h3]; decide
  have b1 : (s == "Open") = false := beq_eq_false_iff_ne.mpr h1
  have b2 : (s == "In Progress") = false := beq_eq_false_iff_ne.mpr h2
  have b3 : (s == "Resolved") = false := beq_eq_false_iff_ne.mpr h3
  simp [b1, b2, b3]

/-- The three status counts together never exceed the list length. -/
lemma status_counts_le (l : List Ticket) :
    l.countP (fun t => t.status == "Open") +
    l.countP (fun t => t.status == "In Progress") +
    l.countP (fun t => t.status == "Resolved") ≤ l.length := by
  induction l with
  | nil => simp
  | cons a t ih =>
    have ha := status_indicator_le a.status
    simp only [List.countP_cons, List.length_cons]
    omega

/-- The three status counts sum to the length exactly when every status
is one of the three recognised strings. -/
lemma status_counts_eq_iff (l : List Ticket) :
    l.countP (fun t => t.status == "Open") +
    l.countP (fun t => t.status == "In Progress") +
    l.countP (fun t => t.status == "Resolved") = l.length ↔
      ∀ t ∈ l, t.status = "Open" ∨ t.status = "In Progress" ∨ t.status = "Resolved" := by
  induction l with
  | nil => simp
  | cons a t ih =>
    have ha := status_indicator_le a.status
    have hle := status_counts_le t
    simp only [List.countP_cons, List.length_cons, List.mem_cons, forall_eq_or_imp]
    constructor
    · intro h
      have hsum : (if (a.status == "Open") = true then 1 else 0) +
          (if (a.status == "In Progress") = true then 1 else 0) +
          (if (a.status == "Resolved") = true then 1 else 0) = 1 := by omega
      have hstat : a.status = "Open" ∨ a.status = "In Progress" ∨ a.status = "Resolved" := by
        by_cases h1 : (a.status == "Open") = true
        · exact Or.inl (eq_of_beq h1)
        by_cases h2 : (a.status == "In Progress") = true
        · exact Or.inr (Or.inl (eq_of_beq h2))
        by_cases h3 : (a.status == "Resolved") = true
        · exact Or.inr (Or.inr (eq_of_beq h3))
        exfalso
        simp only [Bool.not_eq_true] at h1 h2 h3
        rw [h1, h2, h3] at hsum
        simp at hsum
      exact ⟨hstat, ih.mp (by omega)⟩
    · rintro ⟨h1, h2⟩
      have hrest := ih.mpr h2
      have hone : (if (a.status == "Open") = true then 1 else 0) +
          (if (a.status == "In Progress") = true then 1 else 0) +
          (if (a.status == "Resolved") = true then 1 else 0) = 1 := by
        rcases h1 with e | e | e
        · rw [e]; decide
        · rw [e]; decide
        · rw [e]; decide
      omega

/-- Filter lengths are `countP` values (the form used by `stats`). -/
lemma length_filter_eq_countP (p : Ticket → Bool) (l : List Ticket) :
    (l.filter p).length = l.countP p := by
  induction l with
  | nil => rfl
  | cons a t ih =>
    simp only [List.filter_cons, List.countP_cons]
    by_cases h : p a = true
    · rw [if_pos h, if_pos h, List.length_cons, ih]
    · rw [if_neg h, if_neg h, ih]
      omega

/-! ## Claim theorems -/

/-- C1, counterexample: with a whitespace-only title, an active session
and a collection the rejection leaves untouched, `createTicket` writes
no document but also logs nothing — the claim's "rejecting no-op that is
also logged" is false, because the validation early-return precedes the
`try`/`catch` and emits no `console.error`. -/
theorem C1_counterexample :
    (createTicket ⟨"   ", "a description"⟩ (some "user-1") [] "t1" 5 true).collection = [] ∧
    (createTicket ⟨"   ", "a description"⟩ (some "user-1") [] "t1" 5 true).log = [] := by
  decide

/-- C1, amended: whenever the trimmed title or trimmed description is
empty or no session exists, `createTicket` is a rejecting no-op — the
collection and the form are unchanged — and the rejection is silent
(nothing is logged). -/
theorem C1_create_validation_noop (form : FormState) (user : Option String)
    (col : List Ticket) (newId : String) (now : Int) (remoteOk : Bool)
    (h : user = none ∨ jsTrim form.title = "" ∨ jsTrim form.description = "") :
    createTicket form user col newId now remoteOk = ⟨col, form, []⟩ := by
  rcases h with h | h | h
  · rw [h]; rfl
  · cases user with
    | none => rfl
    | some uid => simp [createTicket, h]
  · cases user with
    | none => rfl
    | some uid => simp [createTicket, h]

/-- C1, witness: the amended theorem at a whitespace-only title. -/
theorem C1_create_validation_noop_witness :
    createTicket ⟨" \t ", "  real issue  "⟩ (some "user-1") [] "new-id" 99 true =
      ⟨[], ⟨" \t ", "  real issue  "⟩, []⟩ :=
  C1_create_validation_noop ⟨" \t ", "  real issue  "⟩ (some "user-1") [] "new-id" 99 true
    (Or.inr (Or.inl (by decide)))

/-- C3: on the empty ticket list, and more generally whenever the total
is `0`, all three percentages are `0`: the `total > 0` guard prevents
any division by zero.  The aggregator is by construction a pure total
function of the ticket list (it is a Lean function of the list alone). -/
theorem C3_stats_empty_guard :
    ((stats []).openPercent = 0 ∧ (stats []).inProgressPercent = 0 ∧
      (stats []).resolvedPercent = 0) ∧
    ∀ l : List Ticket, (stats l).total = 0 →
      (stats l).openPercent = 0 ∧ (stats l).inProgressPercent = 0 ∧
        (stats l).resolvedPercent = 0 := by
  constructor
  · exact ⟨rfl, rfl, rfl⟩
  · intro l h
    have hl : l = [] := List.length_eq_zero.mp h
    subst hl
    exact ⟨rfl, rfl, rfl⟩

/-- C3, witness: the guard applied to the empty list. -/
theorem C3_stats_empty_guard_witness :
    (stats []).openPercent = 0 ∧ (stats []).inProgressPercent = 0 ∧
      (stats []).resolvedPercent = 0 :=
  C3_stats_empty_guard.2 [] (by decide)

/-- C4: for a non-empty list each percentage is the corresponding count
divided by the total, times 100, rounded to one decimal (`toFixed1`);
and the three rounded values need not sum to 100, witnessed by one
ticket of each status (33.3 + 33.3 + 33.3 = 99.9). -/
theorem C4_stats_percentages :
    (∀ l : List Ticket, 0 < (stats l).total →
      (stats l).openPercent =
        toFixed1 (((stats l).«open» : ℚ) / ((stats l).total : ℚ) * 100) ∧
      (stats l).inProgressPercent =
        toFixed1 (((stats l).inProgress : ℚ) / ((stats l).total : ℚ) * 100) ∧
      (stats l).resolvedPercent =
        toFixed1 (((stats l).resolved : ℚ) / ((stats l).total : ℚ) * 100)) ∧
    ∃ l : List Ticket, 0 < (stats l).total ∧
      (stats l).openPercent + (stats l).inProgressPercent + (stats l).resolvedPercent ≠ 100 := by
  constructor
  · intro l h
    have hlen : 0 < l.length := h
    refine ⟨?_, ?_, ?_⟩ <;> simp [stats, hlen]
  · refine ⟨[⟨"1", "a", "b", "Open", "u", some 1⟩,
             ⟨"2", "a", "b", "In Progress", "u", some 2⟩,
             ⟨"3", "a", "b", "Resolved", "u", some 3⟩], by decide, ?_⟩
    have h1 : (List.filter (fun t => t.status == "Open")
        [(⟨"1", "a", "b", "Open", "u", some 1⟩ : Ticket),
         ⟨"2", "a", "b", "In Progress", "u", some 2⟩,
         ⟨"3", "a", "b", "Resolved", "u", some 3⟩]).length = 1 := by decide
    have h2 : (List.filter (fun t => t.status == "In Progress")
        [(⟨"1", "a", "b", "Open", "u", some 1⟩ : Ticket),
         ⟨"2", "a", "b", "In Progress", "u", some 2⟩,
         ⟨"3", "a", "b", "Resolved", "u", some 3⟩]).length = 1 := by decide
    have h3 : (List.filter (fun t => t.status == "Resolved")
        [(⟨"1", "a", "b", "Open", "u", some 1⟩ : Ticket),
         ⟨"2", "a", "b", "In Progress", "u", some 2⟩,
         ⟨"3", "a", "b", "Resolved", "u", some 3⟩]).length = 1 := by decide
    simp only [stats, h1, h2, h3, List.length_cons, List.length_nil]
    norm_num [toFixed1]

/-- C4, witness: the percentage formula at a one-element list. -/
theorem C4_stats_percentages_witness :
    (stats [⟨"1", "t", "d", "Open", "u", some 1⟩]).openPercent =
      toFixed1 (((stats [⟨"1", "t", "d", "Open", "u", some 1⟩]).«open» : ℚ) /
        ((stats [⟨"1", "t", "d", "Open", "u", some 1⟩]).total : ℚ) * 100) :=
  (C4_stats_percentages.1 [⟨"1", "t", "d", "Open", "u", some 1⟩] (by decide)).1

/-- C5: the deletion flow is two-step.  The trigger alone — even
repeated — never changes the remote collection and moves the flow to
`pendingConfirmation(id)`; a confirm from `pendingConfirmation(id)`
performs the remote delete and returns the flow to idle; a confirm in
the idle phase is unreachable/no-op; a cancel returns the flow to idle
with the collection intact. -/
theorem C5_delete_two_step :
    (∀ (s : DeleteFlowState) (id : String) (ok : Bool),
      (deleteFlowStep s (.trigger id) ok).1.remote = s.remote ∧
      flowPhase (deleteFlowStep s (.trigger id) ok).1 = some id) ∧
    (∀ (s : DeleteFlowState) (ids : List String) (ok : Bool),
      (ids.foldl (fun st i => (deleteFlowStep st (.trigger i) ok).1) s).remote = s.remote) ∧
    (∀ (s : DeleteFlowState) (id : String), flowPhase s = some id → id ≠ "" →
      (deleteFlowStep s .confirm true).1.remote = s.remote.filter (fun t => t.id != id) ∧
      flowPhase (deleteFlowStep s .confirm true).1 = none) ∧
    (∀ (s : DeleteFlowState) (ok : Bool), flowPhase s = none →
      deleteFlowStep s .confirm ok = (s, [])) ∧
    (∀ (s : DeleteFlowState) (ok : Bool),
      (deleteFlowStep s .cancel ok).1.remote = s.remote ∧
      flowPhase (deleteFlowStep s .cancel ok).1 = none) := by
  refine ⟨?_, ?_, ?_, ?_, ?_⟩
  · intro s id ok
    exact ⟨rfl, rfl⟩
  · intro s ids
    induction ids generalizing s with
    | nil => intro ok; rfl
    | cons i rest ih =>
      intro ok
      rw [List.foldl_cons]
      exact ih _ ok
  · intro s id hph hid
    have hm : s.showConfirmModal = true := by
      by_contra hm
      simp only [Bool.not_eq_true] at hm
      simp [flowPhase, hm] at hph
    have hid2 : s.ticketToDeleteId = some id := by
      simpa [flowPhase, hm] using hph
    constructor
    · simp [deleteFlowStep, hm, hid2, hid]
    · simp [deleteFlowStep, flowPhase, hm, hid2, hid]
  · intro s ok hph
    by_cases hm : s.showConfirmModal = true
    · have hnone : s.ticketToDeleteId = none := by
        simpa [flowPhase, hm] using hph
      simp [deleteFlowStep, hm, hnone]
    · simp only [Bool.not_eq_true] at hm
      simp [deleteFlowStep, hm]
  · intro s ok
    exact ⟨rfl, rfl⟩

/-- C5, witness: confirm from a pending state deletes the pending
ticket and returns to idle. -/
theorem C5_delete_two_step_witness :
    (deleteFlowStep ⟨[⟨"a", "t", "d", "Open", "u", some 1⟩], true, some "a"⟩
        .confirm true).1.remote =
      [(⟨"a", "t", "d", "Open", "u", some 1⟩ : Ticket)].filter (fun t => t.id != "a") ∧
    flowPhase (deleteFlowStep ⟨[⟨"a", "t", "d", "Open", "u", some 1⟩], true, some "a"⟩
        .confirm true).1 = none :=
  C5_delete_two_step.2.2.1 ⟨[⟨"a", "t", "d", "Open", "u", some 1⟩], true, some "a"⟩ "a"
    (by decide) (by decide)

/-- C6: the status dropdown is rendered for every viewer, owner or not,
and `updateTicketStatus` applies the status change to the matching
document with no ownership precondition (it does not even receive the
caller's identity); the delete trigger, in contrast, is rendered exactly
when the viewer's uid equals the ticket's `userId`, and never without a
session. -/
theorem C6_ownership_asymmetry :
    (∀ (t : Ticket) (user : Option String),
      (ticketCardControls t user).statusDropdown = true) ∧
    (∀ (t : Ticket) (uid : String),
      (ticketCardControls t (some uid)).deleteButton = (uid == t.userId)) ∧
    (∀ t : Ticket, (ticketCardControls t none).deleteButton = false) ∧
    (∀ (col : List Ticket) (id newStatus : String) (t : Ticket),
      t ∈ col → t.id = id →
        { t with status := newStatus } ∈ (updateTicketStatus id newStatus col true).1) := by
  refine ⟨fun t user => rfl, fun t uid => rfl, fun t => rfl, ?_⟩
  intro col id st t hmem hid
  have h := List.mem_map_of_mem
    (fun t2 => if t2.id = id then { t2 with status := st } else t2) hmem
  simp only [hid, eq_self_iff_true, if_true] at h
  simpa [updateTicketStatus, hid] using h

/-- C6, witness: a non-owner status update goes through. -/
theorem C6_ownership_asymmetry_witness :
    ({ (⟨"a", "t", "d", "Open", "owner-1", some 1⟩ : Ticket) with status := "Resolved" }) ∈
      (updateTicketStatus "a" "Resolved" [⟨"a", "t", "d", "Open", "owner-1", some 1⟩] true).1 :=
  C6_ownership_asymmetry.2.2.2 [⟨"a", "t", "d", "Open", "owner-1", some 1⟩] "a" "Resolved"
    ⟨"a", "t", "d", "Open", "owner-1", some 1⟩ (by decide) (by decide)

/-- C7, counterexample: a failed confirm-delete does change the UI
state — the `finally` block closes the confirmation dialog even when
`deleteDoc` rejects — refuting "the application's UI state is left
unchanged by the failed operation". -/
theorem C7_counterexample :
    (deleteFlowStep ⟨[⟨"a", "t", "d", "Open", "u", some 1⟩], true, some "a"⟩
        .confirm false).1.showConfirmModal = false ∧
    (⟨[⟨"a", "t", "d", "Open", "u", some 1⟩], true, some "a"⟩ :
        DeleteFlowState).showConfirmModal = true := by
  decide

/-- C7, amended: every failed CRUD or subscribe call is caught and
logged exactly once, is not retried, and leaves the collection, the form
fields and the displayed ticket list unchanged — except that a failed
delete still closes the confirmation dialog and clears the
pending-delete id (its `finally` block runs regardless of the
outcome). -/
theorem C7_operational_errors :
    (∀ (form : FormState) (uid : String) (col : List Ticket) (newId : String) (now : Int),
      jsTrim form.title ≠ "" → jsTrim form.description ≠ "" →
        (createTicket form (some uid) col newId now false).collection = col ∧
        (createTicket form (some uid) col newId now false).form = form ∧
        (createTicket form (some uid) col newId now false).log =
          ["Error creating document: "]) ∧
    (∀ (id newStatus : String) (col : List Ticket),
      (updateTicketStatus id newStatus col false).1 = col ∧
      (updateTicketStatus id newStatus col false).2 = ["Error updating document: "]) ∧
    (∀ (s : DeleteFlowState) (id : String), flowPhase s = some id → id ≠ "" →
      (deleteFlowStep s .confirm false).1.remote = s.remote ∧
      (deleteFlowStep s .confirm false).1.showConfirmModal = false ∧
      (deleteFlowStep s .confirm false).1.ticketToDeleteId = none ∧
      (deleteFlowStep s .confirm false).2 = ["Error deleting document: "]) ∧
    (∀ tickets : List Ticket,
      (subscribeError tickets).1 = tickets ∧
      (subscribeError tickets).2 = ["Error listening to tickets: "]) := by
  refine ⟨?_, ?_, ?_, fun tickets => ⟨rfl, rfl⟩⟩
  · intro form uid col newId now h1 h2
    have hguard : ¬(jsTrim form.title = "" ∨ jsTrim form.description = "") := by
      rintro (h | h)
      · exact h1 h
      · exact h2 h
    refine ⟨?_, ?_, ?_⟩ <;> simp [createTicket, hguard]
  · intro id st col
    exact ⟨rfl, rfl⟩
  · intro s id hph hid
    have hm : s.showConfirmModal = true := by
      by_contra hm
      simp only [Bool.not_eq_true] at hm
      simp [flowPhase, hm] at hph
    have hid2 : s.ticketToDeleteId = some id := by
      simpa [flowPhase, hm] using hph
    refine ⟨?_, ?_, ?_, ?_⟩ <;> simp [deleteFlowStep, hm, hid2, hid]

/-- C7, witness: a failed create keeps the form values and logs once. -/
theorem C7_operational_errors_witness :
    (createTicket ⟨"Refund", "Double-charged"⟩ (some "user-1") [] "new-id" 7 false).collection
        = [] ∧
    (createTicket ⟨"Refund", "Double-charged"⟩ (some "user-1") [] "new-id" 7 false).form
        = ⟨"Refund", "Double-charged"⟩ ∧
    (createTicket ⟨"Refund", "Double-charged"⟩ (some "user-1") [] "new-id" 7 false).log
        = ["Error creating document: "] :=
  C7_operational_errors.1 ⟨"Refund", "Double-charged"⟩ "user-1" [] "new-id" 7
    (by decide) (by decide)

/-- C9: each derived count is exactly the number of tickets carrying the
corresponding status string, the three counts together never exceed the
total, and they sum to the total exactly when every ticket's status lies
in the recognised set — a ticket with any other status contributes to
the total but to none of the three counts. -/
theorem C9_status_count_invariant :
    ∀ l : List Ticket,
      (stats l).«open» = (l.filter (fun t => t.status == "Open")).length ∧
      (stats l).inProgress = (l.filter (fun t => t.status == "In Progress")).length ∧
      (stats l).resolved = (l.filter (fun t => t.status == "Resolved")).length ∧
      (stats l).«open» + (stats l).inProgress + (stats l).resolved ≤ (stats l).total ∧
      ((stats l).«open» + (stats l).inProgress + (stats l).resolved = (stats l).total ↔
        ∀ t ∈ l, t.status = "Open" ∨ t.status = "In Progress" ∨ t.status = "Resolved") := by
  intro l
  have e1 : (stats l).«open» = (l.filter (fun t => t.status == "Open")).length := rfl
  have e2 : (stats l).inProgress = (l.filter (fun t => t.status == "In Progress")).length := rfl
  have e3 : (stats l).resolved = (l.filter (fun t => t.status == "Resolved")).length := rfl
  have e4 : (stats l).total = l.length := rfl
  refine ⟨e1, e2, e3, ?_, ?_⟩
  · rw [e1, e2, e3, e4, length_filter_eq_countP, length_filter_eq_countP,
      length_filter_eq_countP]
    exact status_counts_le l
  · rw [e1, e2, e3, e4, length_filter_eq_countP, length_filter_eq_countP,
      length_filter_eq_countP]
    exact status_counts_eq_iff l

/-- C9, witness: a ticket with an unrecognised status is counted in the
total but in none of the three counts. -/
theorem C9_status_count_invariant_witness :
    (stats [⟨"1", "t", "d", "Closed", "u", some 1⟩]).«open» +
      (stats [⟨"1", "t", "d", "Closed", "u", some 1⟩]).inProgress +
      (stats [⟨"1", "t", "d", "Closed", "u", some 1⟩]).resolved ≤
      (stats [⟨"1", "t", "d", "Closed", "u", some 1⟩]).total :=
  (C9_status_count_invariant [⟨"1", "t", "d", "Closed", "u", some 1⟩]).2.2.2.1

/-- C2, counterexample: in the Netlify variant the consuming layer does
not sort — its snapshot handler stores the received order unchanged —
so a snapshot arriving out of order is stored out of order (here an
older ticket ahead of a newer one), refuting "stable-sorted … at the
consuming layer rather than relying on the query" for that variant. -/
theorem C2_counterexample :
    processSnapshotNetlify
        [⟨"a", "t", "d", "Open", "u", some 1⟩, ⟨"b", "t", "d", "Open", "u", some 2⟩] =
      [⟨"a", "t", "d", "Open", "u", some 1⟩, ⟨"b", "t", "d", "Open", "u", some 2⟩] ∧
    ¬ List.Pairwise (fun a b => sortKey b ≤ sortKey a)
        (processSnapshotNetlify
          [⟨"a", "t", "d", "Open", "u", some 1⟩, ⟨"b", "t", "d", "Open", "u", some 2⟩]) := by
  refine ⟨rfl, ?_⟩
  intro h
  have h1 := (List.pairwise_cons.mp h).1 _ (List.mem_cons_self _ _)
  simp [sortKey] at h1

/-- C2, amended: in the Vercel and Canvas variants the stored list is a
stable sort of the snapshot, non-increasing by `createdAt` with sort key
0 for missing timestamps, so (whenever resolved timestamps are positive)
undated tickets end up after all dated ones; the Netlify variant instead
stores the snapshot order unchanged, relying on the query's `orderBy`.
Stability is stated as usual: any pair already in comparator order keeps
its relative order. -/
theorem C2_snapshot_sort :
    (∀ l : List Ticket,
      List.Pairwise (fun a b => sortKey b ≤ sortKey a) (processSnapshot l)) ∧
    (∀ l : List Ticket, (processSnapshot l).Perm l) ∧
    (∀ l c : List Ticket, List.Pairwise (fun a b => sortKey b ≤ sortKey a) c →
      c.Sublist l → c.Sublist (processSnapshot l)) ∧
    (∀ t : Ticket, t.createdAt = none → sortKey t = 0) ∧
    (∀ l : List Ticket, (∀ t ∈ l, t.createdAt = none ∨ 0 < sortKey t) →
      List.Pairwise (fun a b => a.createdAt = none → b.createdAt = none)
        (processSnapshot l)) ∧
    (∀ l : List Ticket, processSnapshotNetlify l = l) := by
  refine ⟨processSnapshot_pairwise, processSnapshot_perm,
    fun l c hc hsub => processSnapshot_stable hc hsub, ?_, ?_, fun l => rfl⟩
  · intro t ht
    simp [sortKey, ht]
  · intro l hpos
    refine List.Pairwise.imp_of_mem ?_ (processSnapshot_pairwise l)
    intro a b ha hb hkey hanone
    cases hbc : b.createdAt with
    | none => rfl
    | some m =>
      exfalso
      have hbl : b ∈ l := ((processSnapshot_perm l).mem_iff).mp hb
      have hm : 0 < sortKey b := by
        rcases hpos b hbl with h | h
        · rw [h] at hbc; cases hbc
        · exact h
      have hka : sortKey a = 0 := by simp [sortKey, hanone]
      rw [hka] at hkey
      omega

/-- C2, witness: the undated-last conjunct at a snapshot holding one
undated and one dated ticket. -/
theorem C2_snapshot_sort_witness :
    List.Pairwise (fun a b => a.createdAt = none → b.createdAt = none)
      (processSnapshot
        [⟨"n", "t", "d", "Open", "u", none⟩, ⟨"d1", "t", "d", "Open", "u", some 5⟩]) :=
  C2_snapshot_sort.2.2.2.2.1
    [⟨"n", "t", "d", "Open", "u", none⟩, ⟨"d1", "t", "d", "Open", "u", some 5⟩]
    (by decide)

/-- C8: a create with non-empty trimmed fields and an active session
appends exactly one document carrying status `Open`, the session's uid
and the server timestamp; and in the sorted My Tickets view any owned
document whose key strictly exceeds every other owned document's key is
displayed first. -/
theorem C8_create_success_first :
    ∀ (form : FormState) (uid : String) (col : List Ticket) (newId : String) (now : Int),
      jsTrim form.title ≠ "" → jsTrim form.description ≠ "" →
      (createTicket form (some uid) col newId now true).collection =
        col ++ [⟨newId, jsTrim form.title, jsTrim form.description, "Open", uid, some now⟩] ∧
      (∀ (snapshot : List Ticket) (d : Ticket), d.userId = uid → d ∈ snapshot →
        (∀ t ∈ snapshot, t.userId = uid → t ≠ d → sortKey t < sortKey d) →
        (myTicketsView uid snapshot).head? = some d) := by
  intro form uid col newId now h1 h2
  have hguard : ¬(jsTrim form.title = "" ∨ jsTrim form.description = "") := by
    rintro (h | h)
    exacts [h1 h, h2 h]
  constructor
  · simp [createTicket, hguard]
  · intro snap d hduid hdmem hmax
    simp only [myTicketsView, myTicketsQuery]
    apply head?_eq_of_sorted_max (processSnapshot_pairwise _)
    · refine ((processSnapshot_perm _).mem_iff).mpr ?_
      exact List.mem_filter.mpr ⟨hdmem, by simp [hduid]⟩
    · intro t ht hne
      have ht2 := ((processSnapshot_perm _).mem_iff).mp ht
      obtain ⟨htsnap, htuid⟩ := List.mem_filter.mp ht2
      exact hmax t htsnap (eq_of_beq htuid) hne

/-- C8, witness: the spec's worked example — the created document for
title "Refund for order #457", description "Double-charged". -/
theorem C8_create_success_first_witness :
    (createTicket ⟨"Refund for order #457", "Double-charged"⟩ (some "user-1") [] "t9" 100
        true).collection =
      [] ++ [⟨"t9", jsTrim "Refund for order #457", jsTrim "Double-charged", "Open",
        "user-1", some 100⟩] :=
  (C8_create_success_first ⟨"Refund for order #457", "Double-charged"⟩ "user-1" [] "t9" 100
    (by decide) (by decide)).1

/-- C10: a successful create appends one document whose title and
description are exactly the trimmed form values — non-empty, with no
leading or trailing whitespace character — and resets both form fields
to the empty string. -/
theorem C10_trimmed_payload :
    ∀ (form : FormState) (uid : String) (col : List Ticket) (newId : String) (now : Int),
      jsTrim form.title ≠ "" → jsTrim form.description ≠ "" →
      ∃ d : Ticket,
        (createTicket form (some uid) col newId now true).collection = col ++ [d] ∧
        d.title = jsTrim form.title ∧
        d.description = jsTrim form.description ∧
        d.title ≠ "" ∧ d.description ≠ "" ∧
        (∀ c, d.title.data.head? = some c → isJsWhitespace c = false) ∧
        (∀ c, d.title.data.getLast? = some c → isJsWhitespace c = false) ∧
        (∀ c, d.description.data.head? = some c → isJsWhitespace c = false) ∧
        (∀ c, d.description.data.getLast? = some c → isJsWhitespace c = false) ∧
        (createTicket form (some uid) col newId now true).form = ⟨"", ""⟩ := by
  intro form uid col newId now h1 h2
  have hguard : ¬(jsTrim form.title = "" ∨ jsTrim form.description = "") := by
    rintro (h | h)
    exacts [h1 h, h2 h]
  refine ⟨⟨newId, jsTrim form.title, jsTrim form.description, "Open", uid, some now⟩,
    ?_, rfl, rfl, h1, h2, ?_, ?_, ?_, ?_, ?_⟩
  · simp [createTicket, hguard]
  · intro c hc
    exact jsTrimList_head form.title.data c hc
  · intro c hc
    exact jsTrimList_getLast form.title.data c hc
  · intro c hc
    exact jsTrimList_head form.description.data c hc
  · intro c hc
    exact jsTrimList_getLast form.description.data c hc
  · simp [createTicket, hguard]

/-- C10, witness: the trimming theorem at a form typed with surrounding
whitespace. -/
theorem C10_trimmed_payload_witness :
    ∃ d : Ticket,
      (createTicket ⟨"  Refund  ", " Double-charged "⟩ (some "user-1") [] "t3" 42
          true).collection = [] ++ [d] ∧
      d.title = jsTrim "  Refund  " ∧
      d.description = jsTrim " Double-charged " ∧
      d.title ≠ "" ∧ d.description ≠ "" ∧
      (∀ c, d.title.data.head? = some c → isJsWhitespace c = false) ∧
      (∀ c, d.title.data.getLast? = some c → isJsWhitespace c = false) ∧
      (∀ c, d.description.data.head? = some c → isJsWhitespace c = false) ∧
      (∀ c, d.description.data.getLast? = some c → isJsWhitespace c = false) ∧
      (createTicket ⟨"  Refund  ", " Double-charged "⟩ (some "user-1") [] "t3" 42
          true).form = ⟨"", ""⟩ :=
  C10_trimmed_payload ⟨"  Refund  ", " Double-charged "⟩ "user-1" [] "t3" 42
    (by decide) (by decide)

end CommissionTracker
